import Mathlib

/-!
Verification of the keypoint-estimation pipeline of the watch-image-tagging
repository.  The Python sources embedded here are:

* `prediction_server/pipelines/yolo_utils.py`   (`YOLODetector.detect_and_align`)
* `prediction_server/pipelines/loftr_utils.py`  (`LoFTRMatcher.estimate_homography`)
* `prediction_server/pipelines/homography_keypoints.py`
  (`HomographyKeypointsPipeline.predict`, `_estimate_keypoints_from_obb`,
   `_transform_phase1_to_original`, `_project_keypoints`)
* `prediction_server/models/pipeline_result.py` (`KeypointCoords`, `PipelineResult`)

Python floats are embedded as real numbers, Python ints as `Int`/`Nat`.
External model inference (YOLO, LoFTR, RANSAC inside `cv2.findHomography`) and
image decoding are black boxes; their outcomes are inputs of the embedded
functions.  Exceptions raised by those black boxes are explicit `exc`/`exn`
values, mirroring the `try`/`except` granularity of the source.
-/

namespace WatchPipeline

noncomputable section

/-- Embeds `np.radians` / `np.deg2rad`, and the degree conversion done internally by
`cv2.getRotationMatrix2D`. -/
def radians (deg : ℝ) : ℝ := deg * Real.pi / 180

/-- Python `max(0.0, min(1.0, v))`, the clamp used on every emitted keypoint
coordinate. -/
def clamp01 (v : ℝ) : ℝ := max 0 (min 1 v)

/-- The point map of `cv2.warpAffine` with matrix
`cv2.getRotationMatrix2D(center, angleDeg, 1.0)`.  OpenCV builds
`M = [[a, b, (1-a)*cx - b*cy], [-b, a, b*cx + (1-a)*cy]]` with
`a = cos(angle)`, `b = sin(angle)` (angle in degrees), and `warpAffine`
sends a source point `p` to `M * (p, 1)`. -/
def rotationMatrix2DPoint (center : ℝ × ℝ) (angleDeg : ℝ) (p : ℝ × ℝ) : ℝ × ℝ :=
  let a := Real.cos (radians angleDeg)
  let b := Real.sin (radians angleDeg)
  (a * p.1 + b * p.2 + (1 - a) * center.1 - b * center.2,
   -b * p.1 + a * p.2 + b * center.1 + (1 - a) * center.2)

/-- The `transform_params` dict stored by `detect_and_align`, as the tagged
union the spec describes.  The derived `rotation_matrix` entry (the 2x3 affine
matrix, written but never read back by the pipeline) is not carried. -/
inductive TransformParams where
  | resizeOnly (scale_x scale_y : ℝ) (phase1_size : ℤ × ℤ)
  | cropRotateResize (crop_box : ℤ × ℤ × ℤ × ℤ) (crop_center : ℝ × ℝ)
      (rotation_deg : ℝ) (crop_shape : ℤ × ℤ) (scale_x scale_y : ℝ)
      (phase1_size : ℤ × ℤ)

/-- Embedding of `HomographyKeypointsPipeline._transform_phase1_to_original`.  The
`crop_box` components are `(x1, y1, x2, y2)`. -/
def transform_phase1_to_original (x_phase1 y_phase1 : ℝ) :
    Option TransformParams → ℝ × ℝ
  | none => (x_phase1, y_phase1)
  | some (.resizeOnly scale_x scale_y _) =>
      (x_phase1 / scale_x, y_phase1 / scale_y)
  | some (.cropRotateResize crop_box crop_center rotation_deg _ scale_x scale_y _) =>
      let x_rotated := x_phase1 / scale_x
      let y_rotated := y_phase1 / scale_y
      let x_centered := x_rotated - crop_center.1
      let y_centered := y_rotated - crop_center.2
      let angle_rad := radians rotation_deg
      let cos_a := Real.cos angle_rad
      let sin_a := Real.sin angle_rad
      let x_cropped := cos_a * x_centered - sin_a * y_centered + crop_center.1
      let y_cropped := sin_a * x_centered + cos_a * y_centered + crop_center.2
      (x_cropped + (crop_box.1 : ℝ), y_cropped + (crop_box.2.1 : ℝ))

/-- The point map Original → Phase1 induced by the image operations of the
crop/rotate/resize branch of `detect_and_align`: the crop translates a point
by the crop-box origin `(x1, y1)`, `cv2.warpAffine` with
`getRotationMatrix2D(crop_center, -rotation_deg, 1.0)` maps it through that
affine matrix, and the final `cv2.resize` scales by `(scale_x, scale_y)`. -/
def forward_original_to_phase1 (crop_box : ℤ × ℤ × ℤ × ℤ)
    (crop_center : ℝ × ℝ) (rotation_deg : ℝ) (scale_x scale_y : ℝ)
    (q : ℝ × ℝ) : ℝ × ℝ :=
  let p_cropped := (q.1 - (crop_box.1 : ℝ), q.2 - (crop_box.2.1 : ℝ))
  let p_rotated := rotationMatrix2DPoint crop_center (-rotation_deg) p_cropped
  (p_rotated.1 * scale_x, p_rotated.2 * scale_y)

/-- Python `int(x)` for a float `x`: truncation toward zero. -/
def pyInt (x : ℝ) : ℤ := if 0 ≤ x then ⌊x⌋ else ⌈x⌉

/-- One entry of `result.obb` as read by `detect_and_align`: the detection
confidence `obb.conf[0]` and the `xywhr` tuple
`[center_x, center_y, width, height, rotation]`. -/
structure Detection where
  conf : ℝ
  center_x : ℝ
  center_y : ℝ
  width : ℝ
  height : ℝ
  rotation_deg : ℝ

/-- Outcome of the YOLO inference call inside `detect_and_align`'s `try`
block: an exception anywhere inside the block, or the detection list
(index 0 = highest confidence, as produced by the model). -/
inductive YoloOutcome where
  | exc (msg : String)
  | obbs (dets : List Detection)

/-- The `obb_data` dict returned by `detect_and_align`.  Every non-exception
return fills all of these keys; `box_height_rat` models the Python key
`"box_height_ratio"`. -/
structure ObbData where
  center_x : ℝ
  center_y : ℝ
  width : ℝ
  height : ℝ
  rotation_deg : ℝ
  image_shape : ℕ × ℕ
  used_whole_image : Bool
  box_height_rat : ℝ
  transform_params : Option TransformParams

/-- Embedding of `YOLODetector.detect_and_align`.  The Phase-1 image is represented by its
shape `(padded_h, padded_w)`; `(img_h, img_w)` is `image_bgr.shape[:2]` and
`template_size` is the `(height, width)` default `(1024, 1024)`.  The return
tuple is `(aligned_image, num_detections, confidence, reason, obb_data)`.
Exceptions raised by inference or by the OpenCV calls inside the `try` block
are modelled by the `YoloOutcome.exc` input. -/
def detect_and_align (yolo : YoloOutcome) (img_h img_w : ℕ)
    (padding_factor : ℝ) (template_size : ℕ × ℕ) :
    Option (ℤ × ℤ) × ℕ × ℝ × String × Option ObbData :=
  match yolo with
  | .exc msg => (none, 0, 0.0, "yolo_error: " ++ msg, none)
  | .obbs [] =>
      -- No detection: whole-image fallback.
      let padded_w := pyInt ((template_size.2 : ℝ) * padding_factor)
      let padded_h := pyInt ((template_size.1 : ℝ) * padding_factor)
      let scale_x : ℝ := (padded_w : ℝ) / (img_w : ℝ)
      let scale_y : ℝ := (padded_h : ℝ) / (img_h : ℝ)
      let obb : ObbData :=
        { center_x := (img_w : ℝ) / 2
          center_y := (img_h : ℝ) / 2
          width := (img_w : ℝ)
          height := (img_h : ℝ)
          rotation_deg := 0.0
          image_shape := (img_h, img_w)
          used_whole_image := true
          box_height_rat := 1.0
          transform_params :=
            some (.resizeOnly scale_x scale_y (padded_w, padded_h)) }
      (some (padded_h, padded_w), 0, 0.0, "", some obb)
  | .obbs (d :: rest) =>
      let num_detections := (d :: rest).length
      let confidence := d.conf
      let box_height_rat := max d.width d.height / (img_h : ℝ)
      if box_height_rat < 0.10 then
        -- Box implausibly small: whole-image fallback, keeping the real
        -- confidence and OBB geometry.
        let padded_w := pyInt ((template_size.2 : ℝ) * padding_factor)
        let padded_h := pyInt ((template_size.1 : ℝ) * padding_factor)
        let scale_x : ℝ := (padded_w : ℝ) / (img_w : ℝ)
        let scale_y : ℝ := (padded_h : ℝ) / (img_h : ℝ)
        let obb : ObbData :=
          { center_x := d.center_x
            center_y := d.center_y
            width := d.width
            height := d.height
            rotation_deg := d.rotation_deg
            image_shape := (img_h, img_w)
            used_whole_image := true
            box_height_rat := box_height_rat
            transform_params :=
              some (.resizeOnly scale_x scale_y (padded_w, padded_h)) }
        (some (padded_h, padded_w), num_detections, confidence, "", some obb)
      else
        -- Crop around the OBB, de-rotate, resize.
        let crop_w := pyInt (max d.width d.height * 1.3)
        let crop_h := pyInt (max d.width d.height * 1.3)
        let x1 := max 0 (pyInt (d.center_x - ((Int.fdiv crop_w 2 : ℤ) : ℝ)))
        let y1 := max 0 (pyInt (d.center_y - ((Int.fdiv crop_h 2 : ℤ) : ℝ)))
        let x2 := min (img_w : ℤ) (pyInt (d.center_x + ((Int.fdiv crop_w 2 : ℤ) : ℝ)))
        let y2 := min (img_h : ℤ) (pyInt (d.center_y + ((Int.fdiv crop_h 2 : ℤ) : ℝ)))
        let crop_center_x := d.center_x - (x1 : ℝ)
        let crop_center_y := d.center_y - (y1 : ℝ)
        -- `rotated_region` keeps the cropped region's shape.
        let crop_shape_w := x2 - x1
        let crop_shape_h := y2 - y1
        let padded_w := pyInt ((template_size.2 : ℝ) * padding_factor)
        let padded_h := pyInt ((template_size.1 : ℝ) * padding_factor)
        let scale_x : ℝ := (padded_w : ℝ) / (crop_shape_w : ℝ)
        let scale_y : ℝ := (padded_h : ℝ) / (crop_shape_h : ℝ)
        let obb : ObbData :=
          { center_x := d.center_x
            center_y := d.center_y
            width := d.width
            height := d.height
            rotation_deg := d.rotation_deg
            image_shape := (img_h, img_w)
            used_whole_image := false
            box_height_rat := box_height_rat
            transform_params :=
              some (.cropRotateResize (x1, y1, x2, y2)
                (crop_center_x, crop_center_y) d.rotation_deg
                (crop_shape_w, crop_shape_h) scale_x scale_y
                (padded_w, padded_h)) }
        (some (padded_h, padded_w), num_detections, confidence, "", some obb)

/-- Outcome of `cv2.findHomography(mkpts0, mkpts1, cv2.RANSAC, thr)`:
the optional matrix `H`, and `np.sum(inlier_mask)` when the mask is not
`None` (`none` here models `inlier_mask is None`). -/
structure RansacOutcome where
  H : Option (Matrix (Fin 3) (Fin 3) ℝ)
  mask_sum : Option ℕ

/-- Embedding of `LoFTRMatcher.estimate_homography`.  Here `num_matches` is `len(mkpts0)`;
the RANSAC call is the black-box `r`.  Returns `(H, num_inliers,
confidence)`. -/
def estimate_homography (num_matches : ℕ) (r : RansacOutcome)
    (min_inliers : ℕ) : Option (Matrix (Fin 3) (Fin 3) ℝ) × ℕ × ℝ :=
  if num_matches < 4 then (none, 0, 0.0)
  else
    match r.H with
    | none => (none, 0, 0.0)
    | some H =>
        let num_inliers := r.mask_sum.getD 0
        let confidence : ℝ :=
          if 0 < num_matches then (num_inliers : ℝ) / (num_matches : ℝ) else 0.0
        if num_inliers < min_inliers then (none, num_inliers, confidence)
        else (some H, num_inliers, confidence)

/-- The pydantic `KeypointCoords` model: exactly the five named keypoints,
each a normalized `[x, y]` pair. -/
structure KeypointCoords where
  top : ℝ × ℝ
  bottom : ℝ × ℝ
  left : ℝ × ℝ
  right : ℝ × ℝ
  center : ℝ × ℝ

/-- The template data loaded at construction: the five keypoints in
normalized coordinates, the template `image_size` as `(width, height)`, and
the model name. -/
structure TemplateData where
  keypoints_norm : KeypointCoords
  image_size : ℕ × ℕ
  model_name : String

/-- Embedding of `HomographyKeypointsPipeline._estimate_keypoints_from_obb` with its
default `padding_percent = 0.15`. -/
def estimate_keypoints_from_obb (obb : ObbData) (padding_percent : ℝ) :
    KeypointCoords :=
  let rotation_rad := radians obb.rotation_deg
  let padding_factor := 1.0 + 2 * padding_percent
  let width_range := obb.width / padding_factor
  let height_range := obb.height / padding_factor
  let primary : ℝ × ℝ := (Real.sin rotation_rad, Real.cos rotation_rad)
  let secondary : ℝ × ℝ := (Real.cos rotation_rad, -Real.sin rotation_rad)
  let img_h := obb.image_shape.1
  let img_w := obb.image_shape.2
  let half_height := height_range / 2.0
  let half_width := width_range / 2.0
  let nrm : ℝ × ℝ → ℝ × ℝ := fun p =>
    (clamp01 (p.1 / (img_w : ℝ)), clamp01 (p.2 / (img_h : ℝ)))
  { top := nrm (obb.center_x - half_height * primary.1,
                obb.center_y - half_height * primary.2)
    bottom := nrm (obb.center_x + half_height * primary.1,
                   obb.center_y + half_height * primary.2)
    left := nrm (obb.center_x - half_width * secondary.1,
                 obb.center_y - half_width * secondary.2)
    right := nrm (obb.center_x + half_width * secondary.1,
                  obb.center_y + half_width * secondary.2)
    center := nrm (obb.center_x, obb.center_y) }

/-- The hardcoded centered default returned by `_project_keypoints` when the
homography is singular at inversion time. -/
def default_center_keypoints : KeypointCoords :=
  { top := (0.5, 0.2), bottom := (0.5, 0.8),
    left := (0.2, 0.5), right := (0.8, 0.5), center := (0.5, 0.5) }

/-- Embedding of `HomographyKeypointsPipeline._project_keypoints`.  Here `np.linalg.inv`
raises `LinAlgError` exactly on singular matrices, embedded as `H.det = 0`;
on that branch the hardcoded default is returned.  Otherwise each template
keypoint is denormalized, pushed through `H⁻¹` with a homogeneous divide,
mapped by `_transform_phase1_to_original`, renormalized by the original
dimensions and clamped.  `orig_shape` is `(orig_h, orig_w)`. -/
def project_keypoints (H : Matrix (Fin 3) (Fin 3) ℝ)
    (template : TemplateData) (orig_shape : ℕ × ℕ)
    (tp : Option TransformParams) : KeypointCoords :=
  if H.det = 0 then default_center_keypoints
  else
    let Hinv := H⁻¹
    let orig_h := orig_shape.1
    let orig_w := orig_shape.2
    let proj : ℝ × ℝ → ℝ × ℝ := fun kp =>
      let x_t_px := kp.1 * (template.image_size.1 : ℝ)
      let y_t_px := kp.2 * (template.image_size.2 : ℝ)
      let w := Hinv 2 0 * x_t_px + Hinv 2 1 * y_t_px + Hinv 2 2
      let x_phase1 := (Hinv 0 0 * x_t_px + Hinv 0 1 * y_t_px + Hinv 0 2) / w
      let y_phase1 := (Hinv 1 0 * x_t_px + Hinv 1 1 * y_t_px + Hinv 1 2) / w
      let o := transform_phase1_to_original x_phase1 y_phase1 tp
      (clamp01 (o.1 / (orig_w : ℝ)), clamp01 (o.2 / (orig_h : ℝ)))
    { top := proj template.keypoints_norm.top
      bottom := proj template.keypoints_norm.bottom
      left := proj template.keypoints_norm.left
      right := proj template.keypoints_norm.right
      center := proj template.keypoints_norm.center }

/-- The pydantic `BoundingBox` model (normalized box).  The pipeline never
fills it (`roi=None` on every return). -/
structure BoundingBox where
  x : ℝ
  y : ℝ
  width : ℝ
  height : ℝ

/-- The `debug_info` dict of `PipelineResult`, as a record of the keys the
orchestrator may set; `none` models an absent key (`yolo_box_height_rat`
models the key `"yolo_box_height_ratio"`, whose stored value is itself
optional). -/
structure DebugInfo where
  reason : Option String := none
  path : Option String := none
  phase : Option String := none
  num_matches : Option ℕ := none
  inliers : Option ℕ := none
  error : Option String := none
  yolo_detections : Option ℕ := none
  yolo_confidence : Option ℝ := none
  yolo_used_whole_image : Option Bool := none
  yolo_box_height_rat : Option ℝ := none
  loftr_matches : Option ℕ := none
  homography_inliers : Option ℕ := none
  method : Option String := none
  template_model : Option String := none
  fallback_reason : Option String := none

/-- The pydantic `PipelineResult` model. -/
structure PipelineResult where
  success : Bool
  keypoints : Option KeypointCoords
  roi : Option BoundingBox
  confidence : ℝ
  image_width : Option ℕ
  image_height : Option ℕ
  debug_info : DebugInfo
  error_message : Option String

/-- Outcome of a black-box call inside `predict`'s `try` block: a normal
return or a raised exception with its message. -/
inductive ExcOr (α : Type) where
  | ok (a : α)
  | exn (msg : String)

/-- The configuration the pipeline constructor stores and `predict` reads
(`match_threshold` and `ransac_threshold` are only forwarded to the black-box
stages and do not appear in the orchestrator's own logic). -/
structure PipelineConfig where
  padding_factor : ℝ
  min_inliers : ℕ
  template : TemplateData

/-- The per-call inputs of `predict`: the path string, the `cv2.imread`
outcome (`none` = unreadable, otherwise the image shape `(h, w)`), the YOLO
inference outcome, the LoFTR call outcome (`len(mkpts0)` after confidence
filtering, or an exception), and the `cv2.findHomography` outcome. -/
structure PredictInputs where
  image_path : String
  image : Option (ℕ × ℕ)
  yolo : YoloOutcome
  loftr_matches : ExcOr ℕ
  ransac : ExcOr RansacOutcome

/-- The result `predict` returns when `cv2.imread` yields `None`. -/
def load_fail_result (image_path : String) : PipelineResult :=
  { success := false
    keypoints := none
    roi := none
    confidence := 0.0
    image_width := none
    image_height := none
    debug_info := { reason := some "image_load_failed",
                    path := some image_path }
    error_message := some ("Image load failed: " ++ image_path) }

/-- The result `predict` returns when the detector comes back with
`phase1_img is None`. -/
def yolo_fail_result (img_w img_h : ℕ) (reason : String) : PipelineResult :=
  { success := false
    keypoints := none
    roi := none
    confidence := 0.0
    image_width := some img_w
    image_height := some img_h
    debug_info := { phase := some "yolo", reason := some reason }
    error_message := some ("YOLO detection failed: " ++ reason) }

/-- The fatal result of the insufficient-matches branch when no `obb_data`
is available for fallback. -/
def loftr_no_obb_result (img_w img_h nm : ℕ) : PipelineResult :=
  { success := false
    keypoints := none
    roi := none
    confidence := 0.0
    image_width := some img_w
    image_height := some img_h
    debug_info := { phase := some "loftr"
                    reason := some "insufficient_matches_no_obb_fallback"
                    num_matches := some nm }
    error_message := some
      "Insufficient LoFTR matches and no OBB data for fallback" }

/-- The fatal result of the homography-failed branch when no `obb_data` is
available for fallback. -/
def homog_no_obb_result (img_w img_h nm ni : ℕ) : PipelineResult :=
  { success := false
    keypoints := none
    roi := none
    confidence := 0.0
    image_width := some img_w
    image_height := some img_h
    debug_info := { phase := some "homography"
                    reason := some "homography_failed_no_obb_fallback"
                    num_matches := some nm
                    inliers := some ni }
    error_message := some "Homography failed and no OBB data for fallback" }

/-- The result of the full YOLO → LoFTR → Homography → projection path. -/
def full_success_result (img_w img_h num_det : ℕ) (yolo_conf : ℝ)
    (nm ni : ℕ) (conf : ℝ) (kps : KeypointCoords) (uwi : Bool)
    (bhr : Option ℝ) (template_model : String) : PipelineResult :=
  { success := true
    keypoints := some kps
    roi := none
    confidence := conf
    image_width := some img_w
    image_height := some img_h
    debug_info :=
      { yolo_detections := some num_det
        yolo_confidence := some yolo_conf
        yolo_used_whole_image := some uwi
        yolo_box_height_rat := bhr
        loftr_matches := some nm
        homography_inliers := some ni
        method := some "YOLO-LoFTR-Homography"
        template_model := some template_model }
    error_message := none }

/-- The `except Exception` handler of `predict`: any exception escaping a stage
inside the `try` block becomes this result. -/
def pipeline_error_result (img_w img_h : ℕ) (msg : String) : PipelineResult :=
  { success := false
    keypoints := none
    roi := none
    confidence := 0.0
    image_width := some img_w
    image_height := some img_h
    debug_info := { reason := some "pipeline_error", error := some msg }
    error_message := some ("Pipeline error: " ++ msg) }

/-- The success result of the OBB-based fallback branches of `predict`.
`method` and `fallback_reason` are the branch-specific strings;
`homography_inliers` is filled only on the homography-failed branch. -/
def obb_fallback_result (img_w img_h : ℕ) (obb : ObbData)
    (num_det : ℕ) (yolo_conf : ℝ) (nm : ℕ) (hi : Option ℕ)
    (method fallback_reason : String) (template_model : String) :
    PipelineResult :=
  { success := true
    keypoints := some (estimate_keypoints_from_obb obb 0.15)
    roi := none
    confidence := yolo_conf
    image_width := some img_w
    image_height := some img_h
    debug_info :=
      { yolo_detections := some num_det
        yolo_confidence := some yolo_conf
        yolo_used_whole_image := some obb.used_whole_image
        yolo_box_height_rat := some obb.box_height_rat
        loftr_matches := some nm
        homography_inliers := hi
        method := some method
        template_model := some template_model
        fallback_reason := some fallback_reason }
    error_message := none }

/-- Embedding of `HomographyKeypointsPipeline.predict`. -/
def predict (cfg : PipelineConfig) (inp : PredictInputs) : PipelineResult :=
  match inp.image with
  | none => load_fail_result inp.image_path
  | some (img_h, img_w) =>
      match detect_and_align inp.yolo img_h img_w cfg.padding_factor
          (1024, 1024) with
      | (phase1_img, num_det, yolo_conf, reason, obb_data) =>
        match phase1_img with
        | none => yolo_fail_result img_w img_h reason
        | some _ =>
          match inp.loftr_matches with
          | .exn m => pipeline_error_result img_w img_h m
          | .ok nm =>
            if nm < 4 then
              match obb_data with
              | none => loftr_no_obb_result img_w img_h nm
              | some obb =>
                  obb_fallback_result img_w img_h obb num_det yolo_conf nm
                    none "YOLO-OBB-Fallback (insufficient LoFTR matches)"
                    ("insufficient_loftr_matches (" ++ toString nm ++ " < 4)")
                    cfg.template.model_name
            else
              match inp.ransac with
              | .exn m => pipeline_error_result img_w img_h m
              | .ok r =>
                match estimate_homography nm r cfg.min_inliers with
                | (H_opt, num_inliers, homography_conf) =>
                  match H_opt with
                  | none =>
                      match obb_data with
                      | none => homog_no_obb_result img_w img_h nm num_inliers
                      | some obb =>
                          obb_fallback_result img_w img_h obb num_det yolo_conf
                            nm (some num_inliers)
                            "YOLO-OBB-Fallback (homography failed)"
                            ("insufficient_inliers (" ++ toString num_inliers ++
                              " < " ++ toString cfg.min_inliers ++ ")")
                            cfg.template.model_name
                  | some H =>
                      -- `obb_data.get("transform_params")`; `obb_data` is
                      -- provably non-None on this path (see the C10 theorem).
                      full_success_result img_w img_h num_det yolo_conf nm
                        num_inliers homography_conf
                        (project_keypoints H cfg.template (img_h, img_w)
                          (obb_data.bind fun o => o.transform_params))
                        (obb_data.elim false fun o => o.used_whole_image)
                        (obb_data.map fun o => o.box_height_rat)
                        cfg.template.model_name

/-- Confidence of the first (highest-confidence) detection, `0.0` when the
list is empty — the detector's returned confidence on every non-exception
path. -/
def head_conf : List Detection → ℝ
  | [] => 0.0
  | d :: _ => d.conf

/-- A point of the unit square `[0,1] × [0,1]`. -/
def inUnitSquare (p : ℝ × ℝ) : Prop :=
  0 ≤ p.1 ∧ p.1 ≤ 1 ∧ 0 ≤ p.2 ∧ p.2 ≤ 1

/-- All five named keypoints lie in the unit square. -/
def keypointsInUnit (k : KeypointCoords) : Prop :=
  inUnitSquare k.top ∧ inUnitSquare k.bottom ∧ inUnitSquare k.left ∧
    inUnitSquare k.right ∧ inUnitSquare k.center

/-- Template fixture used by concrete witnesses. -/
def tmpl0 : TemplateData :=
  { keypoints_norm := default_center_keypoints
    image_size := (1024, 1024)
    model_name := "nab" }

/-- Configuration fixture (the source defaults) used by concrete
witnesses. -/
def cfg0 : PipelineConfig :=
  { padding_factor := 1.5, min_inliers := 10, template := tmpl0 }

/-- Detection fixture with `max(width, height) / image_height = 0.099` for a
1000-pixel-high image. -/
def d99 : Detection :=
  { conf := 0.9, center_x := 500, center_y := 500, width := 99,
    height := 50, rotation_deg := 0 }

/-- Detection fixture with `max(width, height) / image_height = 0.101` for a
1000-pixel-high image. -/
def d101 : Detection :=
  { conf := 0.9, center_x := 500, center_y := 500, width := 101,
    height := 50, rotation_deg := 0 }

/-- Input fixture: readable image, no detection, zero LoFTR matches. -/
def inpW : PredictInputs :=
  { image_path := "query.jpg", image := some (100, 100), yolo := .obbs [],
    loftr_matches := .ok 0, ransac := .ok ⟨none, none⟩ }

/-- Input fixture: readable image, detector raises internally. -/
def inpE : PredictInputs :=
  { image_path := "query.jpg", image := some (50, 60), yolo := .exc "boom",
    loftr_matches := .ok 0, ransac := .ok ⟨none, none⟩ }

/-- Input fixture: full pipeline, 20 matches, identity homography with 10
RANSAC inliers. -/
def inpF : PredictInputs :=
  { image_path := "query.jpg", image := some (100, 100), yolo := .obbs [],
    loftr_matches := .ok 20, ransac := .ok ⟨some 1, some 10⟩ }

/-- Input fixture: full pipeline whose accepted homography is the zero
(singular) matrix with 15 inliers. -/
def inpS : PredictInputs :=
  { image_path := "query.jpg", image := some (100, 100), yolo := .obbs [],
    loftr_matches := .ok 20, ransac := .ok ⟨some 0, some 15⟩ }

/-- Input fixture: the matcher raises. -/
def inpX : PredictInputs :=
  { image_path := "query.jpg", image := some (100, 100), yolo := .obbs [],
    loftr_matches := .exn "matcher failed", ransac := .ok ⟨none, none⟩ }

/-- Input fixture: the homography stage raises. -/
def inpY : PredictInputs :=
  { image_path := "query.jpg", image := some (100, 100), yolo := .obbs [],
    loftr_matches := .ok 20, ransac := .exn "findHomography failed" }

theorem clamp01_nonneg (v : ℝ) : 0 ≤ clamp01 v := le_max_left 0 _

theorem clamp01_le_one (v : ℝ) : clamp01 v ≤ 1 :=
  max_le zero_le_one (min_le_left 1 v)

/-- Every non-exception outcome of the detector returns a Phase-1 image, the
detection count, the first detection's confidence, an empty reason and a
populated `obb_data`. -/
theorem detect_obbs_eq (dets : List Detection) (img_h img_w : ℕ) (pf : ℝ)
    (ts : ℕ × ℕ) :
    ∃ (p : ℤ × ℤ) (obb : ObbData),
      detect_and_align (.obbs dets) img_h img_w pf ts =
        (some p, dets.length, head_conf dets, "", some obb) := by
  cases dets with
  | nil => exact ⟨_, _, rfl⟩
  | cons d rest =>
    simp only [detect_and_align, head_conf, List.length_cons]
    split
    · exact ⟨_, _, rfl⟩
    · exact ⟨_, _, rfl⟩

/-- Reading off the accepted-homography branch of `estimate_homography`. -/
theorem estimate_homography_some (num_matches : ℕ) (r : RansacOutcome)
    (min_inliers : ℕ) (H : Matrix (Fin 3) (Fin 3) ℝ)
    (h : (estimate_homography num_matches r min_inliers).1 = some H) :
    ¬ num_matches < 4 ∧ r.H = some H ∧
      (estimate_homography num_matches r min_inliers).2 =
        (r.mask_sum.getD 0, (r.mask_sum.getD 0 : ℝ) / (num_matches : ℝ)) := by
  by_cases h4 : num_matches < 4
  · simp only [estimate_homography, if_pos h4] at h
    exact absurd h (by simp)
  · have hpos : 0 < num_matches := by omega
    rcases hH : r.H with _ | H'
    · simp only [estimate_homography, if_neg h4, hH] at h
      exact absurd h (by simp)
    · by_cases hlt : r.mask_sum.getD 0 < min_inliers
      · simp only [estimate_homography, if_neg h4, hH, if_pos hpos,
          if_pos hlt] at h
        exact absurd h (by simp)
      · simp only [estimate_homography, if_neg h4, hH, if_pos hpos,
          if_neg hlt] at h ⊢
        simp only [Option.some.injEq] at h
        exact ⟨h4, congrArg some h, trivial⟩

/-- Exhaustive description of `predict`'s reachable branches.  The two fatal
no-OBB branches do not appear: whenever the detector hands back a Phase-1
image it also hands back `obb_data`. -/
theorem predict_cases (cfg : PipelineConfig) (inp : PredictInputs) :
    (inp.image = none ∧ predict cfg inp = load_fail_result inp.image_path) ∨
    (∃ img_h img_w msg, inp.image = some (img_h, img_w) ∧
      inp.yolo = .exc msg ∧
      predict cfg inp = yolo_fail_result img_w img_h ("yolo_error: " ++ msg)) ∨
    (∃ img_h img_w m, inp.image = some (img_h, img_w) ∧
      inp.loftr_matches = .exn m ∧ (∀ s, inp.yolo ≠ .exc s) ∧
      predict cfg inp = pipeline_error_result img_w img_h m) ∨
    (∃ img_h img_w m nm, inp.image = some (img_h, img_w) ∧
      inp.ransac = .exn m ∧ inp.loftr_matches = .ok nm ∧ ¬ nm < 4 ∧
      (∀ s, inp.yolo ≠ .exc s) ∧
      predict cfg inp = pipeline_error_result img_w img_h m) ∨
    (∃ img_h img_w dets p obb nm, inp.image = some (img_h, img_w) ∧
      inp.yolo = .obbs dets ∧ inp.loftr_matches = .ok nm ∧ nm < 4 ∧
      detect_and_align (.obbs dets) img_h img_w cfg.padding_factor
        (1024, 1024) = (some p, dets.length, head_conf dets, "", some obb) ∧
      predict cfg inp = obb_fallback_result img_w img_h obb dets.length
        (head_conf dets) nm none
        "YOLO-OBB-Fallback (insufficient LoFTR matches)"
        ("insufficient_loftr_matches (" ++ toString nm ++ " < 4)")
        cfg.template.model_name) ∨
    (∃ img_h img_w dets p obb nm r, inp.image = some (img_h, img_w) ∧
      inp.yolo = .obbs dets ∧ inp.loftr_matches = .ok nm ∧ ¬ nm < 4 ∧
      inp.ransac = .ok r ∧
      (estimate_homography nm r cfg.min_inliers).1 = none ∧
      detect_and_align (.obbs dets) img_h img_w cfg.padding_factor
        (1024, 1024) = (some p, dets.length, head_conf dets, "", some obb) ∧
      predict cfg inp = obb_fallback_result img_w img_h obb dets.length
        (head_conf dets) nm (some (estimate_homography nm r cfg.min_inliers).2.1)
        "YOLO-OBB-Fallback (homography failed)"
        ("insufficient_inliers (" ++
          toString (estimate_homography nm r cfg.min_inliers).2.1 ++ " < " ++
          toString cfg.min_inliers ++ ")")
        cfg.template.model_name) ∨
    (∃ img_h img_w dets p obb nm r H, inp.image = some (img_h, img_w) ∧
      inp.yolo = .obbs dets ∧ inp.loftr_matches = .ok nm ∧ ¬ nm < 4 ∧
      inp.ransac = .ok r ∧
      (estimate_homography nm r cfg.min_inliers).1 = some H ∧
      detect_and_align (.obbs dets) img_h img_w cfg.padding_factor
        (1024, 1024) = (some p, dets.length, head_conf dets, "", some obb) ∧
      predict cfg inp = full_success_result img_w img_h dets.length
        (head_conf dets) nm (estimate_homography nm r cfg.min_inliers).2.1
        (estimate_homography nm r cfg.min_inliers).2.2
        (project_keypoints H cfg.template (img_h, img_w) obb.transform_params)
        obb.used_whole_image (some obb.box_height_rat)
        cfg.template.model_name) := by
  rcases inp with ⟨path, img, yolo, lm, rans⟩
  cases img with
  | none => exact Or.inl ⟨rfl, rfl⟩
  | some hw =>
    obtain ⟨img_h, img_w⟩ := hw
    cases yolo with
    | exc msg =>
      exact Or.inr (Or.inl ⟨img_h, img_w, msg, rfl, rfl, rfl⟩)
    | obbs dets =>
      obtain ⟨p, obb, hD⟩ :=
        detect_obbs_eq dets img_h img_w cfg.padding_factor (1024, 1024)
      cases lm with
      | exn m =>
        refine Or.inr (Or.inr (Or.inl ⟨img_h, img_w, m, rfl, rfl, ?_, ?_⟩))
        · intro s hs; exact YoloOutcome.noConfusion hs
        · simp only [predict, hD]
      | ok nm =>
        by_cases h4 : nm < 4
        · refine Or.inr (Or.inr (Or.inr (Or.inr (Or.inl
            ⟨img_h, img_w, dets, p, obb, nm, rfl, rfl, rfl, h4, hD, ?_⟩))))
          simp only [predict, hD, if_pos h4]
        · cases rans with
          | exn m =>
            refine Or.inr (Or.inr (Or.inr (Or.inl
              ⟨img_h, img_w, m, nm, rfl, rfl, rfl, h4, ?_, ?_⟩)))
            · intro s hs; exact YoloOutcome.noConfusion hs
            · simp only [predict, hD, if_neg h4]
          | ok r =>
            rcases hE : estimate_homography nm r cfg.min_inliers with
              ⟨Hopt, ni, conf⟩
            cases Hopt with
            | none =>
              refine Or.inr (Or.inr (Or.inr (Or.inr (Or.inr (Or.inl
                ⟨img_h, img_w, dets, p, obb, nm, r, rfl, rfl, rfl, h4, rfl,
                  by rw [hE], hD, ?_⟩)))))
              simp only [predict, hD, if_neg h4, hE]
            | some H =>
              refine Or.inr (Or.inr (Or.inr (Or.inr (Or.inr (Or.inr
                ⟨img_h, img_w, dets, p, obb, nm, r, H, rfl, rfl, rfl, h4, rfl,
                  by rw [hE], hD, ?_⟩)))))
              simp only [predict, hD, if_neg h4, hE]
              rfl

theorem radians_ninety : radians 90 = Real.pi / 2 := by
  unfold radians; ring

theorem cos_radians_ninety : Real.cos (radians 90) = 0 := by
  rw [radians_ninety, Real.cos_pi_div_two]

theorem sin_radians_ninety : Real.sin (radians 90) = 1 := by
  rw [radians_ninety, Real.sin_pi_div_two]

theorem radians_neg_ninety : radians (-90) = -(Real.pi / 2) := by
  unfold radians; ring

theorem cos_radians_neg_ninety : Real.cos (radians (-90)) = 0 := by
  rw [radians_neg_ninety, Real.cos_neg, Real.cos_pi_div_two]

theorem sin_radians_neg_ninety : Real.sin (radians (-90)) = -1 := by
  rw [radians_neg_ninety, Real.sin_neg, Real.sin_pi_div_two]

/-- C1: the transform round-trip fails.  For the `CropRotateResize` chain with
crop box `(0,0,10,10)`, crop-local center `(2,2)`, rotation 90 and unit resize
scales, the original-space point `(3,2)` (inside the crop box) is mapped by
the forward chain of `detect_and_align` to Phase-1 point `(2,3)`, and
`_transform_phase1_to_original` then returns `(1,2)`, not `(3,2)`: the
claimed identity `inverse(forward(q)) == q` is off by distance 2, far beyond
floating-point tolerance.  The inverse applies the same rotation matrix as
the forward warp (OpenCV's `getRotationMatrix2D` convention has the opposite
sign of the textbook matrix used in the inverse), so the round trip rotates
by twice the recorded angle about the crop center. -/
theorem C1_roundtrip_fails :
    (forward_original_to_phase1 (0, 0, 10, 10) (2, 2) 90 1 1 (3, 2) = (2, 3) ∧
      transform_phase1_to_original 2 3
        (some (TransformParams.cropRotateResize (0, 0, 10, 10) (2, 2) 90
          (10, 10) 1 1 (1536, 1536))) = (1, 2)) ∧
    ((1 : ℝ), (2 : ℝ)) ≠ ((3 : ℝ), (2 : ℝ)) := by
  refine ⟨⟨?_, ?_⟩, ?_⟩
  · unfold forward_original_to_phase1 rotationMatrix2DPoint
    rw [cos_radians_neg_ninety, sin_radians_neg_ninety]
    norm_num
  · simp only [transform_phase1_to_original, cos_radians_ninety, sin_radians_ninety]
    norm_num
  · intro h
    have h1 : (1 : ℝ) = 3 := congrArg Prod.fst h
    norm_num at h1

theorem estimate_keypoints_from_obb_inUnit (obb : ObbData) (pp : ℝ) :
    keypointsInUnit (estimate_keypoints_from_obb obb pp) := by
  simp only [estimate_keypoints_from_obb, keypointsInUnit, inUnitSquare]
  refine ⟨⟨?_, ?_, ?_, ?_⟩, ⟨?_, ?_, ?_, ?_⟩, ⟨?_, ?_, ?_, ?_⟩,
      ⟨?_, ?_, ?_, ?_⟩, ⟨?_, ?_, ?_, ?_⟩⟩ <;>
    first
      | exact clamp01_nonneg _
      | exact clamp01_le_one _

theorem project_keypoints_inUnit (H : Matrix (Fin 3) (Fin 3) ℝ)
    (template : TemplateData) (orig_shape : ℕ × ℕ)
    (tp : Option TransformParams) :
    keypointsInUnit (project_keypoints H template orig_shape tp) := by
  by_cases hdet : H.det = 0
  · simp only [project_keypoints, if_pos hdet, default_center_keypoints,
      keypointsInUnit, inUnitSquare]
    norm_num
  · simp only [project_keypoints, if_neg hdet, keypointsInUnit, inUnitSquare]
    refine ⟨⟨?_, ?_, ?_, ?_⟩, ⟨?_, ?_, ?_, ?_⟩, ⟨?_, ?_, ?_, ?_⟩,
        ⟨?_, ?_, ?_, ?_⟩, ⟨?_, ?_, ?_, ?_⟩⟩ <;>
      first
        | exact clamp01_nonneg _
        | exact clamp01_le_one _

/-- C3: every successful `PredictionResult` carries a keypoint set with
exactly the five named keys (`KeypointCoords` is that record), each
coordinate pair in `[0,1] × [0,1]`, on the full-pipeline path, the OBB
fallback paths and the singular-homography default path alike. -/
theorem C3_keypoints_in_unit_square (cfg : PipelineConfig)
    (inp : PredictInputs) (h : (predict cfg inp).success = true) :
    ∃ k, (predict cfg inp).keypoints = some k ∧ keypointsInUnit k := by
  rcases predict_cases cfg inp with
    ⟨-, hP⟩ | ⟨_, _, _, -, -, hP⟩ | ⟨_, _, _, -, -, -, hP⟩ |
    ⟨_, _, _, _, -, -, -, -, -, hP⟩ |
    ⟨_, _, _, _, obb, nm, -, -, -, -, -, hP⟩ |
    ⟨_, _, _, _, obb, nm, r, -, -, -, -, -, -, -, hP⟩ |
    ⟨img_h, img_w, dets, p, obb, nm, r, H, -, -, -, -, -, -, -, hP⟩
  · rw [hP] at h; exact absurd h (by simp [load_fail_result])
  · rw [hP] at h; exact absurd h (by simp [yolo_fail_result])
  · rw [hP] at h; exact absurd h (by simp [pipeline_error_result])
  · rw [hP] at h; exact absurd h (by simp [pipeline_error_result])
  · rw [hP]
    exact ⟨_, rfl, estimate_keypoints_from_obb_inUnit obb 0.15⟩
  · rw [hP]
    exact ⟨_, rfl, estimate_keypoints_from_obb_inUnit obb 0.15⟩
  · rw [hP]
    exact ⟨_, rfl, project_keypoints_inUnit H cfg.template (img_h, img_w)
      obb.transform_params⟩

theorem C3_witness :
    ∃ k, (predict cfg0 inpW).keypoints = some k ∧ keypointsInUnit k := by
  apply C3_keypoints_in_unit_square
  obtain ⟨p, obb, hD⟩ :=
    detect_obbs_eq [] 100 100 cfg0.padding_factor (1024, 1024)
  simp only [predict, inpW, hD]
  rfl

/-- C10: every return of `detect_and_align` has `phase1_img = none` exactly
when `obb_data = none` (both are `none` only on the internal-exception path),
and consequently the two fatal no-OBB-for-fallback branches of `predict` —
the only results carrying `debug_info.phase = "loftr"` or `"homography"` —
are unreachable. -/
theorem C10_phase1_none_iff_obb_none (y : YoloOutcome) (img_h img_w : ℕ)
    (pf : ℝ) (ts : ℕ × ℕ) (cfg : PipelineConfig) (inp : PredictInputs) :
    ((detect_and_align y img_h img_w pf ts).1 = none ↔
      (detect_and_align y img_h img_w pf ts).2.2.2.2 = none) ∧
    (predict cfg inp).debug_info.phase ≠ some "loftr" ∧
    (predict cfg inp).debug_info.phase ≠ some "homography" := by
  refine ⟨?_, ?_⟩
  · cases y with
    | exc msg => simp [detect_and_align]
    | obbs dets =>
      obtain ⟨p, obb, hD⟩ := detect_obbs_eq dets img_h img_w pf ts
      rw [hD]
      simp
  · rcases predict_cases cfg inp with
      ⟨-, hP⟩ | ⟨_, _, _, -, -, hP⟩ | ⟨_, _, _, -, -, -, hP⟩ |
      ⟨_, _, _, _, -, -, -, -, -, hP⟩ |
      ⟨_, _, _, _, _, _, -, -, -, -, -, hP⟩ |
      ⟨_, _, _, _, _, _, _, -, -, -, -, -, -, -, hP⟩ |
      ⟨_, _, _, _, _, _, _, _, -, -, -, -, -, -, -, hP⟩ <;>
    rw [hP] <;>
    exact ⟨by simp [load_fail_result, yolo_fail_result, pipeline_error_result,
        obb_fallback_result, full_success_result],
      by simp [load_fail_result, yolo_fail_result, pipeline_error_result,
        obb_fallback_result, full_success_result]⟩

theorem C10_witness :
    (predict cfg0 inpW).debug_info.phase ≠ some "loftr" :=
  (C10_phase1_none_iff_obb_none (.obbs []) 100 100 1.5 (1024, 1024)
    cfg0 inpW).2.1

/-- C6: `estimate_homography` returns exactly `(None, 0, 0.0)` when given
fewer than 4 correspondences; otherwise, when RANSAC does return a matrix,
the reported confidence is `num_inliers / num_matches`, and when
`num_inliers < min_inliers` the returned triple is
`(None, num_inliers, confidence)` — the matrix is discarded while the inlier
count and ratio are still reported, distinguishing this outcome from the
no-solution case. -/
theorem C6_estimate_homography_contract (num_matches : ℕ)
    (r : RansacOutcome) (min_inliers : ℕ) :
    (num_matches < 4 →
      estimate_homography num_matches r min_inliers = (none, 0, 0.0)) ∧
    (∀ H, 4 ≤ num_matches → r.H = some H →
      (estimate_homography num_matches r min_inliers).2.2 =
        ((r.mask_sum.getD 0 : ℕ) : ℝ) / (num_matches : ℝ) ∧
      (r.mask_sum.getD 0 < min_inliers →
        estimate_homography num_matches r min_inliers =
          (none, r.mask_sum.getD 0,
            ((r.mask_sum.getD 0 : ℕ) : ℝ) / (num_matches : ℝ)))) := by
  constructor
  · intro h4
    simp only [estimate_homography, if_pos h4]
  · intro H h4 hH
    have hlt : ¬ num_matches < 4 := by omega
    have hpos : 0 < num_matches := by omega
    constructor
    · simp only [estimate_homography, if_neg hlt, hH, if_pos hpos]
      by_cases hm : r.mask_sum.getD 0 < min_inliers
      · simp only [if_pos hm]
      · simp only [if_neg hm]
    · intro hm
      simp only [estimate_homography, if_neg hlt, hH, if_pos hpos, if_pos hm]

theorem C6_witness :
    estimate_homography 20 ⟨some 1, some 5⟩ 10 =
      (none, 5, ((5 : ℕ) : ℝ) / ((20 : ℕ) : ℝ)) := by
  have h := (C6_estimate_homography_contract 20 ⟨some 1, some 5⟩ 10).2 1
    (by decide) rfl
  exact h.2 (by decide)

/-- C8: an internal exception in the detector yields exactly
`(None, 0, 0.0, "yolo_error: <msg>", None)`, and `predict` treats it as a
hard failure: `success = false`, confidence `0.0`, an error message, and no
keypoints (no OBB fallback is possible). -/
theorem C8_detector_exception_hard_failure (cfg : PipelineConfig)
    (inp : PredictInputs) (msg : String) (img_h img_w : ℕ)
    (hy : inp.yolo = .exc msg) (himg : inp.image = some (img_h, img_w)) :
    (∀ h w pf ts, detect_and_align (.exc msg) h w pf ts =
      (none, 0, 0.0, "yolo_error: " ++ msg, none)) ∧
    (predict cfg inp).success = false ∧
    (predict cfg inp).confidence = 0.0 ∧
    (predict cfg inp).keypoints = none ∧
    (predict cfg inp).error_message =
      some ("YOLO detection failed: " ++ ("yolo_error: " ++ msg)) := by
  obtain ⟨path, img, yolo, lm, rans⟩ := inp
  dsimp only at hy himg
  subst hy
  subst himg
  exact ⟨fun h w pf ts => rfl, rfl, rfl, rfl, rfl⟩

theorem C8_witness :
    (predict cfg0 inpE).success = false ∧
    (predict cfg0 inpE).error_message =
      some ("YOLO detection failed: " ++ ("yolo_error: " ++ "boom")) := by
  have h := C8_detector_exception_hard_failure cfg0 inpE "boom" 50 60 rfl rfl
  exact ⟨h.2.1, h.2.2.2.2⟩

/-- C4: a detection whose `max(width, height) / image_height` ratio is 0.099
sends `detect_and_align` down the whole-image path — Phase-1 is the full
image resized to `template_size * padding_factor`, the transform is
`resize_only`, `used_whole_image = true`, while the real detection
confidence and OBB geometry are retained in `obb_data`; a ratio of 0.101
takes the crop/rotate/resize path with `used_whole_image = false`. -/
theorem C4_small_box_threshold (d : Detection) (rest : List Detection)
    (img_h img_w : ℕ) (pf : ℝ) (ts : ℕ × ℕ) :
    (max d.width d.height / (img_h : ℝ) = 0.099 →
      detect_and_align (.obbs (d :: rest)) img_h img_w pf ts =
        (some (pyInt ((ts.1 : ℝ) * pf), pyInt ((ts.2 : ℝ) * pf)),
          (d :: rest).length, d.conf, "",
          some { center_x := d.center_x
                 center_y := d.center_y
                 width := d.width
                 height := d.height
                 rotation_deg := d.rotation_deg
                 image_shape := (img_h, img_w)
                 used_whole_image := true
                 box_height_rat := max d.width d.height / (img_h : ℝ)
                 transform_params := some (.resizeOnly
                   ((pyInt ((ts.2 : ℝ) * pf) : ℝ) / (img_w : ℝ))
                   ((pyInt ((ts.1 : ℝ) * pf) : ℝ) / (img_h : ℝ))
                   (pyInt ((ts.2 : ℝ) * pf), pyInt ((ts.1 : ℝ) * pf))) })) ∧
    (max d.width d.height / (img_h : ℝ) = 0.101 →
      ∃ p obb,
        detect_and_align (.obbs (d :: rest)) img_h img_w pf ts =
          (some p, (d :: rest).length, d.conf, "", some obb) ∧
        obb.used_whole_image = false ∧
        ∃ cb cc rd cs sx sy ps,
          obb.transform_params =
            some (.cropRotateResize cb cc rd cs sx sy ps)) := by
  constructor
  · intro hr
    have hlt : max d.width d.height / (img_h : ℝ) < 0.10 := by
      rw [hr]; norm_num
    simp only [detect_and_align, if_pos hlt]
  · intro hr
    have hlt : ¬ max d.width d.height / (img_h : ℝ) < 0.10 := by
      rw [hr]; norm_num
    simp only [detect_and_align, if_neg hlt]
    exact ⟨_, _, rfl, rfl, _, _, _, _, _, _, _, rfl⟩

theorem C4_witness :
    ((detect_and_align (.obbs [d99]) 1000 1000 1.5 (1024, 1024)).2.2.2.2.map
        fun o => o.used_whole_image) = some true ∧
    (∃ p obb, detect_and_align (.obbs [d101]) 1000 1000 1.5 (1024, 1024) =
        (some p, 1, d101.conf, "", some obb) ∧
      obb.used_whole_image = false ∧
      ∃ cb cc rd cs sx sy ps,
        obb.transform_params =
          some (.cropRotateResize cb cc rd cs sx sy ps)) := by
  constructor
  · have h1 := (C4_small_box_threshold d99 [] 1000 1000 1.5 (1024, 1024)).1
      (by norm_num [d99, max_def])
    rw [h1]
    rfl
  · exact (C4_small_box_threshold d101 [] 1000 1000 1.5 (1024, 1024)).2
      (by norm_num [d101, max_def])

/-- C5: whenever the matcher returns fewer than 4 filtered matches, the
orchestrator's result does not depend on the homography stage at all (so
`estimate_homography` is never consulted), and the resulting
`debug_info.method` is the OBB-fallback string, not
`"YOLO-LoFTR-Homography"`. -/
theorem C5_insufficient_matches_no_homography (cfg : PipelineConfig)
    (inp : PredictInputs) (nm img_h img_w : ℕ)
    (himg : inp.image = some (img_h, img_w))
    (hy : ∀ s, inp.yolo ≠ .exc s)
    (hm : inp.loftr_matches = .ok nm) (h4 : nm < 4) :
    (∀ r', predict cfg inp = predict cfg { inp with ransac := r' }) ∧
    (predict cfg inp).debug_info.method =
      some "YOLO-OBB-Fallback (insufficient LoFTR matches)" ∧
    (predict cfg inp).debug_info.method ≠ some "YOLO-LoFTR-Homography" := by
  obtain ⟨path, img, yolo, lm, rans⟩ := inp
  dsimp only at himg hy hm ⊢
  subst himg
  subst hm
  rcases yolo with msg | dets
  · exact absurd rfl (hy msg)
  · obtain ⟨p, obb, hD⟩ :=
      detect_obbs_eq dets img_h img_w cfg.padding_factor (1024, 1024)
    have hP : ∀ (rr : ExcOr RansacOutcome),
        predict cfg ⟨path, some (img_h, img_w), .obbs dets, .ok nm, rr⟩ =
          obb_fallback_result img_w img_h obb dets.length (head_conf dets)
            nm none "YOLO-OBB-Fallback (insufficient LoFTR matches)"
            ("insufficient_loftr_matches (" ++ toString nm ++ " < 4)")
            cfg.template.model_name := by
      intro rr
      simp only [predict, hD, if_pos h4]
    refine ⟨fun r' => (hP rans).trans (hP r').symm, ?_, ?_⟩
    · rw [hP rans]
      rfl
    · rw [hP rans]
      simp [obb_fallback_result]

theorem C5_witness :
    (predict cfg0 inpW).debug_info.method =
      some "YOLO-OBB-Fallback (insufficient LoFTR matches)" :=
  (C5_insufficient_matches_no_homography cfg0 inpW 0 100 100 rfl
    (fun s h => YoloOutcome.noConfusion h) rfl (by decide)).2.1

/-- C9: `predict` is a total function of its (possibly exceptional) stage
outcomes — no exception escapes the entry point; a result succeeds exactly
when it carries no error message, and exceptions raised inside the matcher
or the homography stage are converted to a fatal result that preserves the
exception text in `error_message`. -/
theorem C9_failures_captured (cfg : PipelineConfig) (inp : PredictInputs) :
    ((predict cfg inp).success = true ↔
      (predict cfg inp).error_message = none) ∧
    (∀ m img_h img_w, inp.image = some (img_h, img_w) →
      (∀ s, inp.yolo ≠ .exc s) → inp.loftr_matches = .exn m →
      (predict cfg inp).success = false ∧
      (predict cfg inp).error_message = some ("Pipeline error: " ++ m)) ∧
    (∀ m nm img_h img_w, inp.image = some (img_h, img_w) →
      (∀ s, inp.yolo ≠ .exc s) → inp.loftr_matches = .ok nm → ¬ nm < 4 →
      inp.ransac = .exn m →
      (predict cfg inp).success = false ∧
      (predict cfg inp).error_message = some ("Pipeline error: " ++ m)) := by
  refine ⟨?_, ?_, ?_⟩
  · rcases predict_cases cfg inp with
      ⟨-, hP⟩ | ⟨_, _, _, -, -, hP⟩ | ⟨_, _, _, -, -, -, hP⟩ |
      ⟨_, _, _, _, -, -, -, -, -, hP⟩ |
      ⟨_, _, _, _, _, _, -, -, -, -, -, hP⟩ |
      ⟨_, _, _, _, _, _, _, -, -, -, -, -, -, -, hP⟩ |
      ⟨_, _, _, _, _, _, _, _, -, -, -, -, -, -, -, hP⟩ <;>
    rw [hP] <;>
    simp [load_fail_result, yolo_fail_result, pipeline_error_result,
      obb_fallback_result, full_success_result]
  · intro m img_h img_w himg hy hm
    obtain ⟨path, img, yolo, lm, rans⟩ := inp
    dsimp only at himg hy hm
    subst himg
    subst hm
    rcases yolo with msg | dets
    · exact absurd rfl (hy msg)
    · obtain ⟨p, obb, hD⟩ :=
        detect_obbs_eq dets img_h img_w cfg.padding_factor (1024, 1024)
      have hP : predict cfg
          ⟨path, some (img_h, img_w), .obbs dets, .exn m, rans⟩ =
          pipeline_error_result img_w img_h m := by
        simp only [predict, hD]
      rw [hP]
      exact ⟨rfl, rfl⟩
  · intro m nm img_h img_w himg hy hm h4 hr
    obtain ⟨path, img, yolo, lm, rans⟩ := inp
    dsimp only at himg hy hm hr
    subst himg
    subst hm
    subst hr
    rcases yolo with msg | dets
    · exact absurd rfl (hy msg)
    · obtain ⟨p, obb, hD⟩ :=
        detect_obbs_eq dets img_h img_w cfg.padding_factor (1024, 1024)
      have hP : predict cfg
          ⟨path, some (img_h, img_w), .obbs dets, .ok nm, .exn m⟩ =
          pipeline_error_result img_w img_h m := by
        simp only [predict, hD, if_neg h4]
      rw [hP]
      exact ⟨rfl, rfl⟩

theorem C9_witness :
    ((predict cfg0 inpX).success = false ∧
      (predict cfg0 inpX).error_message =
        some ("Pipeline error: " ++ "matcher failed")) ∧
    ((predict cfg0 inpY).success = false ∧
      (predict cfg0 inpY).error_message =
        some ("Pipeline error: " ++ "findHomography failed")) := by
  constructor
  · exact (C9_failures_captured cfg0 inpX).2.1 "matcher failed" 100 100 rfl
      (fun s h => YoloOutcome.noConfusion h) rfl
  · exact (C9_failures_captured cfg0 inpY).2.2 "findHomography failed" 20
      100 100 rfl (fun s h => YoloOutcome.noConfusion h) rfl (by decide) rfl

/-- C2: a successful result whose `debug_info.method` is
`"YOLO-LoFTR-Homography"` carries the homography stage's confidence — the
inlier ratio `num_inliers / num_matches` — while a result whose method is
one of the two OBB-fallback strings carries the detector confidence returned
by `detect_and_align`. -/
theorem C2_confidence_semantics (cfg : PipelineConfig)
    (inp : PredictInputs) :
    ((predict cfg inp).debug_info.method = some "YOLO-LoFTR-Homography" →
      ∃ nm r, inp.loftr_matches = .ok nm ∧ inp.ransac = .ok r ∧
        (predict cfg inp).confidence =
          (estimate_homography nm r cfg.min_inliers).2.2 ∧
        (estimate_homography nm r cfg.min_inliers).2.2 =
          ((r.mask_sum.getD 0 : ℕ) : ℝ) / (nm : ℝ)) ∧
    (∀ s, (predict cfg inp).debug_info.method = some s →
      (s = "YOLO-OBB-Fallback (insufficient LoFTR matches)" ∨
        s = "YOLO-OBB-Fallback (homography failed)") →
      ∃ img_h img_w, inp.image = some (img_h, img_w) ∧
        (predict cfg inp).confidence =
          (detect_and_align inp.yolo img_h img_w cfg.padding_factor
            (1024, 1024)).2.2.1) := by
  rcases predict_cases cfg inp with
    ⟨-, hP⟩ | ⟨_, _, _, -, -, hP⟩ | ⟨_, _, _, -, -, -, hP⟩ |
    ⟨_, _, _, _, -, -, -, -, -, hP⟩ |
    ⟨img_h, img_w, dets, p, obb, nm, himg, hy, hm, h4, hD, hP⟩ |
    ⟨img_h, img_w, dets, p, obb, nm, r, himg, hy, hm, h4, hr, hE, hD, hP⟩ |
    ⟨img_h, img_w, dets, p, obb, nm, r, H, himg, hy, hm, h4, hr, hE, hD, hP⟩
  · rw [hP]
    exact ⟨fun hme => absurd hme (by simp [load_fail_result]),
      fun s hme _ => absurd hme (by simp [load_fail_result])⟩
  · rw [hP]
    exact ⟨fun hme => absurd hme (by simp [yolo_fail_result]),
      fun s hme _ => absurd hme (by simp [yolo_fail_result])⟩
  · rw [hP]
    exact ⟨fun hme => absurd hme (by simp [pipeline_error_result]),
      fun s hme _ => absurd hme (by simp [pipeline_error_result])⟩
  · rw [hP]
    exact ⟨fun hme => absurd hme (by simp [pipeline_error_result]),
      fun s hme _ => absurd hme (by simp [pipeline_error_result])⟩
  · rw [hP]
    refine ⟨fun hme => absurd hme (by simp [obb_fallback_result]),
      fun s hme _ => ⟨img_h, img_w, himg, ?_⟩⟩
    rw [hy, hD]
    rfl
  · rw [hP]
    refine ⟨fun hme => absurd hme (by simp [obb_fallback_result]),
      fun s hme _ => ⟨img_h, img_w, himg, ?_⟩⟩
    rw [hy, hD]
    rfl
  · rw [hP]
    constructor
    · intro hme
      obtain ⟨h4', hrH, h2⟩ :=
        estimate_homography_some nm r cfg.min_inliers H hE
      refine ⟨nm, r, hm, hr, rfl, ?_⟩
      rw [congrArg Prod.snd h2]
    · intro s hme hs
      have hs' : s = "YOLO-LoFTR-Homography" := by
        simp only [full_success_result, Option.some.injEq] at hme
        exact hme.symm
      rcases hs with h | h <;> rw [hs'] at h <;> exact absurd h (by decide)

theorem C2_witness :
    ∃ nm r, inpF.loftr_matches = .ok nm ∧ inpF.ransac = .ok r ∧
      (predict cfg0 inpF).confidence =
        (estimate_homography nm r cfg0.min_inliers).2.2 ∧
      (estimate_homography nm r cfg0.min_inliers).2.2 =
        ((r.mask_sum.getD 0 : ℕ) : ℝ) / (nm : ℝ) := by
  apply (C2_confidence_semantics cfg0 inpF).1
  obtain ⟨p, obb, hD⟩ :=
    detect_obbs_eq [] 100 100 cfg0.padding_factor (1024, 1024)
  have hE : estimate_homography 20 ⟨some 1, some 10⟩ 10 =
      (some 1, 10, ((10 : ℕ) : ℝ) / ((20 : ℕ) : ℝ)) := rfl
  simp only [predict, inpF, hD, hE]
  rfl

/-- C7: when the accepted homography is singular at inversion time, the
projector returns exactly the hardcoded centered `KeypointCoords` (so the
OBB fallback estimator plays no part in the output), and `predict` still
reports `success = true` with the homography stage's confidence. -/
theorem C7_singular_homography_default (cfg : PipelineConfig)
    (inp : PredictInputs) (img_h img_w nm : ℕ) (r : RansacOutcome)
    (H : Matrix (Fin 3) (Fin 3) ℝ)
    (himg : inp.image = some (img_h, img_w))
    (hy : ∀ s, inp.yolo ≠ .exc s)
    (hm : inp.loftr_matches = .ok nm) (h4 : ¬ nm < 4)
    (hr : inp.ransac = .ok r)
    (hH : (estimate_homography nm r cfg.min_inliers).1 = some H)
    (hdet : H.det = 0) :
    (predict cfg inp).success = true ∧
    (predict cfg inp).keypoints = some default_center_keypoints ∧
    (predict cfg inp).confidence =
      (estimate_homography nm r cfg.min_inliers).2.2 := by
  obtain ⟨path, img, yolo, lm, rans⟩ := inp
  dsimp only at himg hy hm hr
  subst himg
  subst hm
  subst hr
  rcases yolo with msg | dets
  · exact absurd rfl (hy msg)
  · obtain ⟨p, obb, hD⟩ :=
      detect_obbs_eq dets img_h img_w cfg.padding_factor (1024, 1024)
    rcases hE : estimate_homography nm r cfg.min_inliers with ⟨Hopt, ni, conf⟩
    rw [hE] at hH
    simp only at hH
    subst hH
    have hP : predict cfg
        ⟨path, some (img_h, img_w), .obbs dets, .ok nm, .ok r⟩ =
        full_success_result img_w img_h dets.length (head_conf dets) nm ni
          conf (project_keypoints H cfg.template (img_h, img_w)
            obb.transform_params)
          obb.used_whole_image (some obb.box_height_rat)
          cfg.template.model_name := by
      simp only [predict, hD, if_neg h4, hE]
      rfl
    rw [hP]
    refine ⟨rfl, ?_, rfl⟩
    simp only [full_success_result, project_keypoints, if_pos hdet]

theorem C7_witness :
    (predict cfg0 inpS).success = true ∧
    (predict cfg0 inpS).keypoints = some default_center_keypoints := by
  have h := C7_singular_homography_default cfg0 inpS 100 100 20
    ⟨some 0, some 15⟩ 0 rfl (fun s h => YoloOutcome.noConfusion h) rfl
    (by decide) rfl rfl (by simp [Matrix.det_fin_three])
  exact ⟨h.1, h.2.1⟩

end

end WatchPipeline
